import Mathlib

/-!
# Verification of the ampurr sysfs control core (src/ampurr.py)

A shallow embedding of the battery charge-limit and CPU-governor control
logic of `ampurr.py`.  The filesystem (sysfs plus the config file) is an
explicit state: directory listings, file contents, and a set of paths on
which opening for write raises an OS error.  Every embedded function is
translated from the Python source; stdout/stderr lines and exit codes are
part of each operation's result.
-/

/-- `os.path.join a b` for the shapes used by the source (nonempty `a`,
relative `b`): inserts a slash unless `a` already ends with one. -/
def joinPath (a b : String) : String :=
  if a.toList.getLastD ' ' == '/' then a ++ b else a ++ "/" ++ b

/-- Python whitespace (`str.split()` / `str.strip()` default set; exotic
Unicode spaces are not modelled). -/
def pyIsSpace (c : Char) : Bool :=
  c == ' ' || c == '\t' || c == '\n' || c == '\r' || c == '\x0b' || c == '\x0c'

/-- Python `s.strip()`: drop leading and trailing whitespace. -/
def pyStrip (s : String) : String :=
  ⟨((s.toList.dropWhile pyIsSpace).reverse.dropWhile pyIsSpace).reverse⟩

/-- Character-list test behind `str.startswith`. -/
def beginsWithAux : List Char → List Char → Bool
  | [], _ => true
  | _ :: _, [] => false
  | p :: ps, c :: cs => p == c && beginsWithAux ps cs

/-- Python `s.startswith(p)`. -/
def beginsWith (s p : String) : Bool :=
  beginsWithAux p.toList s.toList

/-- The filesystem state seen by one process invocation.
`dirs` maps a directory path to its `os.listdir` entries; `files` maps a
file path to its content (most recent write first); `failWrites` is the
set of paths on which opening for write raises an `OSError` (models
read-only sysfs nodes, I/O errors, and similar). -/
structure FS where
  dirs : List (String × List String)
  files : List (String × String)
  failWrites : List String
deriving DecidableEq, Repr

/-- `os.path.isdir p`. -/
def FS.isdir (fs : FS) (p : String) : Bool :=
  fs.dirs.any (fun e => e.1 == p)

/-- `os.listdir p`; `none` models `FileNotFoundError`. -/
def FS.listdir (fs : FS) (p : String) : Option (List String) :=
  fs.dirs.lookup p

/-- `os.path.exists p` (true for files and directories). -/
def FS.pathExists (fs : FS) (p : String) : Bool :=
  fs.files.any (fun e => e.1 == p) || fs.isdir p

/-- `open(p).read()`; `none` models the raised exception when `p` is
absent (or not a readable file). -/
def FS.read (fs : FS) (p : String) : Option String :=
  fs.files.lookup p

/-- `open(p, "w").write(c)`; fails (raising inside the caller) exactly on
the paths in `failWrites`, otherwise replaces the content of `p`. -/
def FS.write (fs : FS) (p c : String) : Option FS :=
  if fs.failWrites.contains p then none
  else some { fs with files := (p, c) :: fs.files }

/-- `CONFIG_FILE = "/etc/ampurr.conf"`. -/
def CONFIG_FILE : String := "/etc/ampurr.conf"

/-! ## Python `int(...)` parsing

`int(s)` strips surrounding whitespace, accepts an optional sign and a
nonempty digit sequence in which single underscores may separate digits.
-/

/-- No two adjacent underscores. -/
def noAdjUnderscore : List Char → Bool
  | c1 :: c2 :: rest => !(c1 == '_' && c2 == '_') && noAdjUnderscore (c2 :: rest)
  | _ => true

/-- A valid `int()` literal body after the optional sign: nonempty, begins
and ends with a digit, contains only digits and single underscores. -/
def pyIntBody (cs : List Char) : Bool :=
  !cs.isEmpty && (cs.headD 'x').isDigit && (cs.getLastD 'x').isDigit
    && cs.all (fun c => c.isDigit || c == '_') && noAdjUnderscore cs

/-- Decimal value of a digit list. -/
def digitsToNat (cs : List Char) : Nat :=
  cs.foldl (fun n c => 10 * n + (c.toNat - 48)) 0

/-- Python `int(s)` on text: `some` its value, `none` when `int` raises
`ValueError`. -/
def parsePyInt (s : String) : Option Int :=
  let cs := (pyStrip s).toList
  match cs with
  | '-' :: rest =>
      if pyIntBody rest then some (-(digitsToNat (rest.filter Char.isDigit) : Int)) else none
  | '+' :: rest =>
      if pyIntBody rest then some ((digitsToNat (rest.filter Char.isDigit) : Int)) else none
  | _ =>
      if pyIntBody cs then some ((digitsToNat (cs.filter Char.isDigit) : Int)) else none

/-- Accumulating splitter behind `str.split()`. -/
def pySplitWsAux : List Char → List Char → List String
  | [], acc => if acc.isEmpty then [] else [⟨acc.reverse⟩]
  | c :: rest, acc =>
    if pyIsSpace c then
      if acc.isEmpty then pySplitWsAux rest []
      else (⟨acc.reverse⟩ : String) :: pySplitWsAux rest []
    else pySplitWsAux rest (c :: acc)

/-- Python `s.split()`: split on whitespace runs, dropping empty pieces. -/
def pySplitWs (s : String) : List String :=
  pySplitWsAux s.toList []

/-- Python `" ".join l`. -/
def joinSpace : List String → String
  | [] => ""
  | [s] => s
  | s :: rest => s ++ " " ++ joinSpace rest

/-! ## Device locator (`find_supported_battery`, `_get_cpu_cores`,
`get_available_governors`, `get_current_governor`) -/

/-- The scanned base directory `/sys/class/power_supply/`. -/
def powerSupplyBase : String := "/sys/class/power_supply/"

/-- `[d for d in os.listdir(base_path) if d.startswith('BAT')]`. -/
def batteryDirs (fs : FS) : List String :=
  ((fs.listdir powerSupplyBase).getD []).filter (fun d => beginsWith d "BAT")

/-- `os.path.exists(os.path.join(base_path, bat_dir, "charge_control_end_threshold"))`. -/
def batteryQualifies (fs : FS) (d : String) : Bool :=
  fs.pathExists (joinPath (joinPath powerSupplyBase d) "charge_control_end_threshold")

/-- `find_supported_battery()`: first `BAT*` entry of the scan that holds a
`charge_control_end_threshold` file; `none` when the base directory is
absent or no entry qualifies. -/
def find_supported_battery (fs : FS) : Option String :=
  if fs.isdir powerSupplyBase then
    (batteryDirs fs).findSome? (fun d =>
      if batteryQualifies fs d then some (joinPath powerSupplyBase d) else none)
  else none

/-- `re.match(r'cpu\d+', d)`: `d` starts with `cpu` followed by a digit. -/
def isCpuCoreName (d : String) : Bool :=
  match d.toList with
  | 'c' :: 'p' :: 'u' :: c :: _ => c.isDigit
  | _ => false

/-- `_get_cpu_cores()`: entries of `/sys/devices/system/cpu/` matching
`cpu\d+`; `[]` when the directory is absent (`FileNotFoundError`). -/
def get_cpu_cores (fs : FS) : List String :=
  ((fs.listdir "/sys/devices/system/cpu/").getD []).filter isCpuCoreName

/-- The per-core governor file `f"/sys/devices/system/cpu/{core}/cpufreq/scaling_governor"`. -/
def governorFilePath (core : String) : String :=
  "/sys/devices/system/cpu/" ++ core ++ "/cpufreq/scaling_governor"

/-- `get_available_governors()`: whitespace-split content of cpu0's
`scaling_available_governors`, `[]` when the file is missing. -/
def get_available_governors (fs : FS) : List String :=
  match fs.read "/sys/devices/system/cpu/cpu0/cpufreq/scaling_available_governors" with
  | none => []
  | some s => pySplitWs (pyStrip s)

/-- `get_current_governor()`: stripped content of cpu0's `scaling_governor`,
or the literal `"not available"` when the file is missing. -/
def get_current_governor (fs : FS) : String :=
  match fs.read "/sys/devices/system/cpu/cpu0/cpufreq/scaling_governor" with
  | none => "not available"
  | some s => pyStrip s

/-! ## Control service -/

/-- Outcome of `set_cpu_governor`; every constructor except `ok` makes the
process exit with code 1. `invalidGovernorError` carries the available set
printed for the user. -/
inductive GovOutcome
  | permissionError
  | unsupportedError
  | invalidGovernorError (available : List String)
  | noCoresError
  | writeError
  | ok
deriving DecidableEq, Repr

/-- Process exit code produced by each `set_cpu_governor` outcome. -/
def GovOutcome.exitCode : GovOutcome → Nat
  | .ok => 0
  | _ => 1

/-- The `for core in cores` write loop of `set_cpu_governor`, inside one
try/except: cores whose governor file does not exist are skipped; the
first failing write aborts the loop, keeping all earlier writes
(`false` = an exception was raised, with the state reached so far). -/
def writeGovernorLoop (g : String) : FS → List String → Bool × FS
  | fs, [] => (true, fs)
  | fs, core :: rest =>
    if fs.pathExists (governorFilePath core) then
      match fs.write (governorFilePath core) g with
      | none => (false, fs)
      | some fs1 => writeGovernorLoop g fs1 rest
    else writeGovernorLoop g fs rest

/-- `set_cpu_governor(governor_name)` run with effective uid `euid`;
returns the outcome, the final filesystem and the printed lines
(exception text after `error setting the CPU governor` is elided). -/
def set_cpu_governor (euid : Nat) (fs : FS) (governor_name : String) :
    GovOutcome × FS × List String :=
  if euid ≠ 0 then
    (.permissionError, fs,
      ["❌ error: modifying the CPU governor requires superuser privileges."])
  else
    let available := get_available_governors fs
    if available.isEmpty then
      (.unsupportedError, fs,
        ["❌ error: could not detect available CPU governors. your system may not support this."])
    else if ¬ available.contains governor_name then
      (.invalidGovernorError available, fs,
        ["❌ error: " ++ governor_name ++ " is not a valid governor.",
         "available options for your system: " ++ joinSpace available])
    else
      let cores := get_cpu_cores fs
      if cores.isEmpty then
        (.noCoresError, fs, ["❌ error: could not find any CPU cores."])
      else
        let head := "setting CPU governor to " ++ governor_name ++ " for all cores..."
        match writeGovernorLoop governor_name fs cores with
        | (true, fs1) =>
          (.ok, fs1, [head, "✅ CPU governor successfully set to " ++ governor_name ++ "."])
        | (false, fs1) =>
          (.writeError, fs1, [head, "❌ error setting the CPU governor."])

/-- `get_current_limit(battery_path)`: integer-parse the stripped content
of `charge_control_end_threshold`; `none` models the caught exception
(missing file or invalid integer), on which the process prints an error
and exits 1. -/
def get_current_limit (fs : FS) (battery_path : String) : Option Int :=
  match fs.read (joinPath battery_path "charge_control_end_threshold") with
  | none => none
  | some s => parsePyInt (pyStrip s)

/-- Outcome of `set_charge_limit`; every constructor except `ok` makes the
process exit with code 1.  `sysfsWriteError`: the write to the sysfs
control file raised, nothing changed.  `configWriteError`: the sysfs write
succeeded (and its success line was printed) but the config write raised. -/
inductive SetLimitOutcome
  | permissionError
  | rangeError
  | sysfsWriteError
  | configWriteError
  | ok
deriving DecidableEq, Repr

/-- Process exit code produced by each `set_charge_limit` outcome. -/
def SetLimitOutcome.exitCode : SetLimitOutcome → Nat
  | .ok => 0
  | _ => 1

/-- `set_charge_limit(limit_value, battery_path)` run with effective uid
`euid`; returns the outcome, the final filesystem and the printed lines
(exception text after `error setting the limit` is elided). -/
def set_charge_limit (euid : Nat) (fs : FS) (limit_value : Int) (battery_path : String) :
    SetLimitOutcome × FS × List String :=
  if euid ≠ 0 then
    (.permissionError, fs,
      ["❌ error: modifying the charge limit requires superuser privileges."])
  else if ¬ (50 ≤ limit_value ∧ limit_value ≤ 100) then
    (.rangeError, fs, ["❌ error: the limit value must be between 50 and 100."])
  else
    match fs.write (joinPath battery_path "charge_control_end_threshold")
        (toString limit_value) with
    | none => (.sysfsWriteError, fs, ["❌ error setting the limit."])
    | some fs1 =>
      let sessionMsg := "✅ charge limit successfully set to " ++ toString limit_value ++
        "% for the current session."
      match fs1.write CONFIG_FILE (toString limit_value) with
      | none => (.configWriteError, fs1, [sessionMsg, "❌ error setting the limit."])
      | some fs2 =>
        (.ok, fs2, [sessionMsg,
          "✅ limit of " ++ toString limit_value ++ "% saved and will be applied on next boot."])

/-- `get_current_capacity(battery_path)`: `none` (`None`) when the
`capacity` file is absent or its content fails to parse; never an error. -/
def get_current_capacity (fs : FS) (battery_path : String) : Option Int :=
  if ¬ fs.pathExists (joinPath battery_path "capacity") then none
  else
    match fs.read (joinPath battery_path "capacity") with
    | none => none
    | some s => parsePyInt (pyStrip s)

/-- `_apply_on_boot()`: read the config file (absent: no-op), locate the
battery, write the stripped stored text to the control file; every
exception on the way is swallowed (`except Exception: pass`), so the
function is total and silent. -/
def apply_on_boot (fs : FS) : FS :=
  if ¬ fs.pathExists CONFIG_FILE then fs
  else
    match fs.read CONFIG_FILE with
    | none => fs
    | some content =>
      match find_supported_battery fs with
      | none => fs
      | some battery_path =>
        match fs.write (joinPath battery_path "charge_control_end_threshold")
            (pyStrip content) with
        | none => fs
        | some fs1 => fs1

/-- The `--apply-on-boot` invocation of the main router: runs
`_apply_on_boot()` and then `sys.exit(0)` unconditionally, printing
nothing (exit code, final filesystem, printed lines). -/
def run_apply_on_boot (fs : FS) : Nat × FS × List String :=
  (0, apply_on_boot fs, [])

/-- A parsed CLI command (the argparse result of `run_cli`). -/
inductive Cmd
  | batterySet (limit : Int)
  | batteryGet
  | batteryStatus
  | cpuSet (governor : String)
  | cpuStatus
  | cpuList
deriving DecidableEq, Repr

/-- `run_cli()` after argument parsing: locate the battery (exit 1 when
none is supported), then dispatch; returns the exit code, the final
filesystem and the printed lines. -/
def run_cli (euid : Nat) (fs : FS) (cmd : Cmd) : Nat × FS × List String :=
  match find_supported_battery fs with
  | none => (1, fs, ["❌ error: no supported battery found."])
  | some battery_path =>
    match cmd with
    | .batterySet v =>
      let (out, fs1, msgs) := set_charge_limit euid fs v battery_path
      (out.exitCode, fs1, msgs)
    | .batteryGet =>
      match get_current_limit fs battery_path with
      | none => (1, fs, ["❌ error reading the limit."])
      | some limit => (0, fs, ["current charge limit: " ++ toString limit ++ "%"])
    | .batteryStatus =>
      match get_current_limit fs battery_path with
      | none => (1, fs, ["❌ error reading the limit."])
      | some limit =>
        match get_current_capacity fs battery_path with
        | none =>
          (0, fs, ["set charge limit: " ++ toString limit ++ "%",
                   "could not determine current capacity"])
        | some c =>
          (0, fs, ["set charge limit: " ++ toString limit ++ "%",
                   "current capacity:   " ++ toString c ++ "%"])
    | .cpuSet g =>
      let (out, fs1, msgs) := set_cpu_governor euid fs g
      (out.exitCode, fs1, msgs)
    | .cpuStatus =>
      (0, fs, ["current CPU governor: " ++ get_current_governor fs])
    | .cpuList =>
      let govs := get_available_governors fs
      if govs.isEmpty then (0, fs, ["could not find any available governors."])
      else
        (0, fs, ["available governors for your system:",
                 "  " ++ joinSpace govs])

/-! ## Sample filesystems used to instantiate the theorems -/

/-- A laptop with two batteries (`BAT0` without a control file, `BAT1`
with one), four CPU cores and two governors; all paths writable. -/
def demoFS : FS where
  dirs := [(powerSupplyBase, ["BAT0", "BAT1", "AC"]),
           ("/sys/devices/system/cpu/", ["cpu0", "cpu1", "cpu2", "cpu3", "cpufreq"])]
  files := [("/sys/class/power_supply/BAT1/charge_control_end_threshold", "100\n"),
            ("/sys/devices/system/cpu/cpu0/cpufreq/scaling_available_governors",
             "performance powersave\n"),
            (governorFilePath "cpu0", "powersave\n"),
            (governorFilePath "cpu1", "powersave\n"),
            (governorFilePath "cpu2", "powersave\n"),
            (governorFilePath "cpu3", "powersave\n")]
  failWrites := []

/-- A machine with CPUs but no supported battery at all. -/
def noBatteryFS : FS where
  dirs := [("/sys/devices/system/cpu/", ["cpu0", "cpu1"])]
  files := [("/sys/devices/system/cpu/cpu0/cpufreq/scaling_available_governors",
             "performance powersave\n"),
            (governorFilePath "cpu0", "powersave\n"),
            (governorFilePath "cpu1", "powersave\n")]
  failWrites := []

/-- A simulated 4-core system, every core on `powersave`. -/
def fanoutFS : FS where
  dirs := [("/sys/devices/system/cpu/", ["cpu0", "cpu1", "cpu2", "cpu3"])]
  files := [("/sys/devices/system/cpu/cpu0/cpufreq/scaling_available_governors",
             "performance powersave\n"),
            (governorFilePath "cpu0", "powersave\n"),
            (governorFilePath "cpu1", "powersave\n"),
            (governorFilePath "cpu2", "powersave\n"),
            (governorFilePath "cpu3", "powersave\n")]
  failWrites := []

/-- `fanoutFS` with the write to core 2's governor file failing. -/
def fanoutFSfail : FS :=
  { fanoutFS with failWrites := [governorFilePath "cpu2"] }

/-- A 3-core listing where `cpu1` exposes no cpufreq governor file. -/
def fanoutFSskip : FS where
  dirs := [("/sys/devices/system/cpu/", ["cpu0", "cpu1", "cpu2"])]
  files := [("/sys/devices/system/cpu/cpu0/cpufreq/scaling_available_governors",
             "performance powersave\n"),
            (governorFilePath "cpu0", "powersave\n"),
            (governorFilePath "cpu2", "powersave\n")]
  failWrites := []

/-- A battery whose control file reads `80` but with no `capacity` file. -/
def statusFSnoCap : FS where
  dirs := [(powerSupplyBase, ["BAT0"])]
  files := [("/sys/class/power_supply/BAT0/charge_control_end_threshold", "80\n")]
  failWrites := []

/-- A battery whose control file holds text that is not a valid integer. -/
def statusFSbadLimit : FS where
  dirs := [(powerSupplyBase, ["BAT0"])]
  files := [("/sys/class/power_supply/BAT0/charge_control_end_threshold", "unknown\n"),
            ("/sys/class/power_supply/BAT0/capacity", "55\n")]
  failWrites := []

/-- `demoFS` plus a persisted config file holding the out-of-range text
`30`. -/
def bootFS : FS :=
  { demoFS with files := (CONFIG_FILE, "30\n") :: demoFS.files }

/-- `demoFS` where writing the config file fails. -/
def configFailFS : FS :=
  { demoFS with failWrites := [CONFIG_FILE] }

/-- `bootFS` where writing the battery control file fails. -/
def bootFailFS : FS :=
  { bootFS with
      failWrites := ["/sys/class/power_supply/BAT1/charge_control_end_threshold"] }

/-! ## Helper lemmas -/

/-- `lookup` of the key of the second entry when both entries hold the
same value. -/
theorem lookup_cons_cons_same (k1 k2 v : String) (l : List (String × String)) :
    List.lookup k2 ((k1, v) :: (k2, v) :: l) = some v := by
  cases h : k2 == k1 <;> simp [List.lookup, h]

/-- Rendering an integer in `[50, 100]` and parsing it back with Python
`int` semantics is the identity. -/
theorem parse_toString_int (v : Int) (h1 : 50 ≤ v) (h2 : v ≤ 100) :
    parsePyInt (pyStrip (toString v)) = some v := by
  interval_cases v <;> decide

/-- `lookup` of the key of the first entry. -/
theorem lookup_cons_self (k v : String) (l : List (String × String)) :
    List.lookup k ((k, v) :: l) = some v := by
  simp [List.lookup]

/-- `lookup` skips an entry with a different key. -/
theorem lookup_cons_ne (k1 k2 v : String) (l : List (String × String)) (h : k2 ≠ k1) :
    List.lookup k2 ((k1, v) :: l) = List.lookup k2 l := by
  cases hbe : k2 == k1 with
  | false => simp [List.lookup, hbe]
  | true => exact absurd (eq_of_beq hbe) h

/-! ## The claims -/

/-- C1: for every integer `v` with `50 ≤ v ≤ 100`, when the caller is
privileged (`euid = 0`) and both the sysfs control file and the config
file are writable, `set_charge_limit v` followed by `get_current_limit`
on the same battery returns `v` (round-trip through the sysfs file). -/
theorem set_then_get_roundtrip (fs : FS) (bp : String) (v : Int)
    (h1 : 50 ≤ v) (h2 : v ≤ 100)
    (hw1 : joinPath bp "charge_control_end_threshold" ∉ fs.failWrites)
    (hw2 : CONFIG_FILE ∉ fs.failWrites) :
    (set_charge_limit 0 fs v bp).1 = .ok ∧
    get_current_limit (set_charge_limit 0 fs v bp).2.1 bp = some v := by
  refine ⟨?_, ?_⟩ <;>
    simp [set_charge_limit, FS.write, hw1, hw2, h1, h2, get_current_limit, FS.read,
      lookup_cons_cons_same, parse_toString_int]

/-- Witness for C1: round-trip of the limit 80 on `demoFS`. -/
theorem set_then_get_roundtrip_witness :
    (set_charge_limit 0 demoFS 80 "/sys/class/power_supply/BAT1").1 = .ok ∧
    get_current_limit (set_charge_limit 0 demoFS 80 "/sys/class/power_supply/BAT1").2.1
      "/sys/class/power_supply/BAT1" = some 80 :=
  set_then_get_roundtrip demoFS "/sys/class/power_supply/BAT1" 80
    (by decide) (by decide) (by decide) (by decide)

/-- C2: an out-of-range value makes `set_charge_limit` fail with the range
error, leaving the filesystem (live sysfs value and persisted config)
untouched; and without elevated privilege both `set_charge_limit` and
`set_cpu_governor` fail with the permission error before any write, for
every input. -/
theorem validation_before_any_write (euid : Nat) (fs : FS) (v : Int) (bp g : String) :
    (euid = 0 → v < 50 ∨ 100 < v →
      set_charge_limit euid fs v bp =
        (.rangeError, fs, ["❌ error: the limit value must be between 50 and 100."])) ∧
    (euid ≠ 0 →
      set_charge_limit euid fs v bp =
        (.permissionError, fs,
         ["❌ error: modifying the charge limit requires superuser privileges."]) ∧
      set_cpu_governor euid fs g =
        (.permissionError, fs,
         ["❌ error: modifying the CPU governor requires superuser privileges."])) := by
  refine ⟨fun h0 hv => ?_, fun hne => ⟨?_, ?_⟩⟩
  · subst h0
    have hrange : ¬ (50 ≤ v ∧ v ≤ 100) := by omega
    simp [set_charge_limit, hrange]
  · simp [set_charge_limit, hne]
  · simp [set_cpu_governor, hne]

/-- Witness for C2: `set_charge_limit 30` is rejected in range on
`demoFS`, and with `euid = 1000` both operations are rejected on
privilege. -/
theorem validation_before_any_write_witness :
    set_charge_limit 0 demoFS 30 "/sys/class/power_supply/BAT1" =
      (.rangeError, demoFS, ["❌ error: the limit value must be between 50 and 100."]) ∧
    set_charge_limit 1000 demoFS 80 "/sys/class/power_supply/BAT1" =
      (.permissionError, demoFS,
       ["❌ error: modifying the charge limit requires superuser privileges."]) ∧
    set_cpu_governor 1000 demoFS "performance" =
      (.permissionError, demoFS,
       ["❌ error: modifying the CPU governor requires superuser privileges."]) :=
  ⟨(validation_before_any_write 0 demoFS 30 "/sys/class/power_supply/BAT1"
      "performance").1 rfl (by omega),
   (validation_before_any_write 1000 demoFS 80 "/sys/class/power_supply/BAT1"
      "performance").2 (by omega)⟩

/-- C4: `set_cpu_governor` checks its preconditions in order, each failing
with the filesystem untouched (no governor file written): privilege
first, then a non-empty available-governor set, then membership of the
name in that set, the invalid-governor error carrying exactly the current
available set (also printed in full). -/
theorem governor_precondition_order (euid : Nat) (fs : FS) (name : String) :
    (euid ≠ 0 →
      set_cpu_governor euid fs name =
        (.permissionError, fs,
         ["❌ error: modifying the CPU governor requires superuser privileges."])) ∧
    (get_available_governors fs = [] →
      set_cpu_governor 0 fs name =
        (.unsupportedError, fs,
         ["❌ error: could not detect available CPU governors. your system may not support this."])) ∧
    (get_available_governors fs ≠ [] →
      name ∉ get_available_governors fs →
      set_cpu_governor 0 fs name =
        (.invalidGovernorError (get_available_governors fs), fs,
         ["❌ error: " ++ name ++ " is not a valid governor.",
          "available options for your system: " ++ joinSpace (get_available_governors fs)])) := by
  refine ⟨fun hne => ?_, fun hemp => ?_, fun hne hmem => ?_⟩
  · simp [set_cpu_governor, hne]
  · simp [set_cpu_governor, hemp]
  · simp [set_cpu_governor, List.isEmpty_iff, hne, hmem]

/-- Witness for C4: on `demoFS` an unknown governor name is rejected with
the full available set `["performance", "powersave"]` as payload. -/
theorem governor_precondition_order_witness :
    set_cpu_governor 0 demoFS "ondemand" =
      (.invalidGovernorError (get_available_governors demoFS), demoFS,
       ["❌ error: " ++ "ondemand" ++ " is not a valid governor.",
        "available options for your system: " ++ joinSpace (get_available_governors demoFS)]) :=
  (governor_precondition_order 0 demoFS "ondemand").2.2 (by decide) (by decide)

/-- C9: every CLI command, the CPU-only ones included, first requires a
supported battery; when none is found, `run_cli` exits 1 with the
filesystem untouched (the requested CPU operation is never attempted). -/
theorem cli_requires_battery (euid : Nat) (fs : FS) (cmd : Cmd)
    (h : find_supported_battery fs = none) :
    run_cli euid fs cmd = (1, fs, ["❌ error: no supported battery found."]) := by
  simp [run_cli, h]

/-- Witness for C9: `cpu list` on a machine with CPUs but no supported
battery fails with exit code 1 and no state change. -/
theorem cli_requires_battery_witness :
    run_cli 0 noBatteryFS .cpuList = (1, noBatteryFS, ["❌ error: no supported battery found."]) :=
  cli_requires_battery 0 noBatteryFS .cpuList (by decide)

/-- C3: with a valid value and privilege, a failing sysfs write makes
`set_charge_limit` fail with nothing changed (the config file is not
updated), while a succeeding sysfs write followed by a failing config
write leaves the live value changed and the config untouched; the two
outcomes are distinguishable to the caller (distinct outcome
constructors, and only the second prints the session success line before
the error). -/
theorem set_limit_failure_modes (fs : FS) (bp : String) (v : Int)
    (h1 : 50 ≤ v) (h2 : v ≤ 100) :
    (joinPath bp "charge_control_end_threshold" ∈ fs.failWrites →
      set_charge_limit 0 fs v bp = (.sysfsWriteError, fs, ["❌ error setting the limit."])) ∧
    (joinPath bp "charge_control_end_threshold" ∉ fs.failWrites →
      CONFIG_FILE ∈ fs.failWrites →
      joinPath bp "charge_control_end_threshold" ≠ CONFIG_FILE →
      (set_charge_limit 0 fs v bp).1 = .configWriteError ∧
      (set_charge_limit 0 fs v bp).2.1.read (joinPath bp "charge_control_end_threshold") =
        some (toString v) ∧
      (set_charge_limit 0 fs v bp).2.1.read CONFIG_FILE = fs.read CONFIG_FILE ∧
      (set_charge_limit 0 fs v bp).2.2 =
        ["✅ charge limit successfully set to " ++ toString v ++ "% for the current session.",
         "❌ error setting the limit."]) := by
  refine ⟨fun hw => ?_, fun hw1 hw2 hne => ?_⟩
  · simp [set_charge_limit, FS.write, hw, h1, h2]
  · have hskip : List.lookup CONFIG_FILE
        ((joinPath bp "charge_control_end_threshold", toString v) :: fs.files) =
        List.lookup CONFIG_FILE fs.files :=
      lookup_cons_ne _ _ _ _ (Ne.symm hne)
    refine ⟨?_, ?_, ?_, ?_⟩ <;>
      simp [set_charge_limit, FS.write, hw1, hw2, h1, h2, FS.read, lookup_cons_self, hskip]

/-- Witness for C3: on `configFailFS` (config file not writable) setting
the limit 70 changes the live sysfs value, keeps the config file absent,
and reports the config-write failure after the session success line. -/
theorem set_limit_failure_modes_witness :
    (set_charge_limit 0 configFailFS 70 "/sys/class/power_supply/BAT1").1 = .configWriteError ∧
    (set_charge_limit 0 configFailFS 70 "/sys/class/power_supply/BAT1").2.1.read
      (joinPath "/sys/class/power_supply/BAT1" "charge_control_end_threshold") =
      some (toString (70 : Int)) ∧
    (set_charge_limit 0 configFailFS 70 "/sys/class/power_supply/BAT1").2.1.read CONFIG_FILE =
      configFailFS.read CONFIG_FILE ∧
    (set_charge_limit 0 configFailFS 70 "/sys/class/power_supply/BAT1").2.2 =
      ["✅ charge limit successfully set to " ++ toString (70 : Int) ++
        "% for the current session.",
       "❌ error setting the limit."] :=
  (set_limit_failure_modes configFailFS "/sys/class/power_supply/BAT1" 70
    (by decide) (by decide)).2 (by decide) (by decide) (by decide)

/-- C5: `set_cpu_governor` writes the governor sequentially to the
`scaling_governor` file of every listed core that has one (skipping cores
without), and on a failing write it aborts there with no rollback: on the
simulated 4-core system all four files hold the new value when all writes
succeed; when the write to core 2 fails, cores 0 and 1 hold the new value
and cores 2 and 3 the old one. -/
theorem governor_fanout_no_rollback :
    ((set_cpu_governor 0 fanoutFS "performance").1 = .ok ∧
      (set_cpu_governor 0 fanoutFS "performance").2.1.read (governorFilePath "cpu0") =
        some "performance" ∧
      (set_cpu_governor 0 fanoutFS "performance").2.1.read (governorFilePath "cpu1") =
        some "performance" ∧
      (set_cpu_governor 0 fanoutFS "performance").2.1.read (governorFilePath "cpu2") =
        some "performance" ∧
      (set_cpu_governor 0 fanoutFS "performance").2.1.read (governorFilePath "cpu3") =
        some "performance") ∧
    ((set_cpu_governor 0 fanoutFSfail "performance").1 = .writeError ∧
      (set_cpu_governor 0 fanoutFSfail "performance").2.1.read (governorFilePath "cpu0") =
        some "performance" ∧
      (set_cpu_governor 0 fanoutFSfail "performance").2.1.read (governorFilePath "cpu1") =
        some "performance" ∧
      (set_cpu_governor 0 fanoutFSfail "performance").2.1.read (governorFilePath "cpu2") =
        some "powersave\n" ∧
      (set_cpu_governor 0 fanoutFSfail "performance").2.1.read (governorFilePath "cpu3") =
        some "powersave\n") ∧
    ((set_cpu_governor 0 fanoutFSskip "performance").1 = .ok ∧
      (set_cpu_governor 0 fanoutFSskip "performance").2.1.read (governorFilePath "cpu0") =
        some "performance" ∧
      (set_cpu_governor 0 fanoutFSskip "performance").2.1.read (governorFilePath "cpu1") =
        none ∧
      (set_cpu_governor 0 fanoutFSskip "performance").2.1.read (governorFilePath "cpu2") =
        some "performance") := by
  decide

/-- C6: `find_supported_battery` returns the first scan entry starting
with `BAT` that holds a `charge_control_end_threshold` file; it returns
nothing exactly when the base directory is absent or no such entry
qualifies; in particular, with `BAT0` lacking the file and `BAT1`
possessing it, it returns `BAT1`. -/
theorem findBattery_first_qualifying :
    (∀ fs : FS, fs.isdir powerSupplyBase = false → find_supported_battery fs = none) ∧
    (∀ fs : FS, (∀ d ∈ batteryDirs fs, batteryQualifies fs d = false) →
      find_supported_battery fs = none) ∧
    (∀ (fs : FS) (pre : List String) (d : String) (post : List String),
      fs.isdir powerSupplyBase = true →
      batteryDirs fs = pre ++ d :: post →
      (∀ x ∈ pre, batteryQualifies fs x = false) →
      batteryQualifies fs d = true →
      find_supported_battery fs = some (joinPath powerSupplyBase d)) ∧
    find_supported_battery demoFS = some "/sys/class/power_supply/BAT1" := by
  refine ⟨fun fs h => ?_, fun fs h => ?_, fun fs pre d post hdir hbd hpre hd => ?_, by decide⟩
  · simp [find_supported_battery, h]
  · cases hdir : fs.isdir powerSupplyBase with
    | false => simp [find_supported_battery, hdir]
    | true =>
      simp only [find_supported_battery, hdir, if_true, List.findSome?_eq_none_iff]
      intro x hx
      simp [h x hx]
  · have hpre' : pre.findSome? (fun x =>
        if batteryQualifies fs x then some (joinPath powerSupplyBase x) else none) = none := by
      rw [List.findSome?_eq_none_iff]
      intro x hx
      simp [hpre x hx]
    simp [find_supported_battery, hdir, hbd, List.findSome?_append, hpre', hd]

/-- Witness for C6: the first-qualifying-entry clause instantiated on
`demoFS`, whose scan yields `BAT0` (no control file) before `BAT1`. -/
theorem findBattery_first_qualifying_witness :
    find_supported_battery demoFS = some (joinPath powerSupplyBase "BAT1") :=
  findBattery_first_qualifying.2.2.1 demoFS ["BAT0"] "BAT1" []
    (by decide) (by decide) (by decide) (by decide)

/-- C7: the boot path is fire-and-forget: with no persisted config file
`apply_on_boot` changes nothing; otherwise it locates the battery and
writes the stored value to the control file; a failing write is swallowed
with the state unchanged; and the `--apply-on-boot` invocation always
exits 0 and prints nothing. -/
theorem apply_on_boot_fire_and_forget (fs : FS) :
    (fs.pathExists CONFIG_FILE = false → apply_on_boot fs = fs) ∧
    (run_apply_on_boot fs).1 = 0 ∧
    (run_apply_on_boot fs).2.2 = [] ∧
    (∀ s bp fs1, fs.pathExists CONFIG_FILE = true →
      fs.read CONFIG_FILE = some s →
      find_supported_battery fs = some bp →
      fs.write (joinPath bp "charge_control_end_threshold") (pyStrip s) = some fs1 →
      apply_on_boot fs = fs1) ∧
    (∀ bp, find_supported_battery fs = some bp →
      joinPath bp "charge_control_end_threshold" ∈ fs.failWrites →
      apply_on_boot fs = fs) := by
  refine ⟨fun h => ?_, rfl, rfl, fun s bp fs1 hex hr hb hw => ?_, fun bp hb hfail => ?_⟩
  · simp [apply_on_boot, h]
  · simp [apply_on_boot, hex, hr, hb, hw]
  · cases hex : fs.pathExists CONFIG_FILE with
    | false => simp [apply_on_boot, hex]
    | true =>
      cases hr : fs.read CONFIG_FILE with
      | none => simp [apply_on_boot, hex, hr]
      | some content =>
        have hw : fs.write (joinPath bp "charge_control_end_threshold")
            (pyStrip content) = none := by
          simp [FS.write, hfail]
        simp [apply_on_boot, hex, hr, hb, hw]

/-- Witness for C7: on `demoFS` (no config file present) the boot path is
a no-op, and on `bootFailFS` (control file not writable) the failure is
swallowed with the state unchanged. -/
theorem apply_on_boot_fire_and_forget_witness :
    apply_on_boot demoFS = demoFS ∧ apply_on_boot bootFailFS = bootFailFS :=
  ⟨(apply_on_boot_fire_and_forget demoFS).1 (by decide),
   (apply_on_boot_fire_and_forget bootFailFS).2.2.2.2 "/sys/class/power_supply/BAT1"
     (by decide) (by decide)⟩

/-- C8: on a missing file the two reads differ: `get_current_capacity`
returns `none` as a plain value (the `battery status` command still exits
0, printing that the capacity could not be determined), while
`get_current_limit` treats a missing or non-integer control file as an
error (the command exits 1). -/
theorem missing_file_read_asymmetry (fs : FS) (bp s : String) :
    (fs.pathExists (joinPath bp "capacity") = false → get_current_capacity fs bp = none) ∧
    (fs.read (joinPath bp "charge_control_end_threshold") = none →
      get_current_limit fs bp = none) ∧
    (fs.read (joinPath bp "charge_control_end_threshold") = some s →
      parsePyInt (pyStrip s) = none → get_current_limit fs bp = none) ∧
    run_cli 0 statusFSnoCap .batteryStatus =
      (0, statusFSnoCap, ["set charge limit: 80%", "could not determine current capacity"]) ∧
    run_cli 0 statusFSbadLimit .batteryStatus =
      (1, statusFSbadLimit, ["❌ error reading the limit."]) := by
  refine ⟨fun h => ?_, fun h => ?_, fun h hp => ?_, by decide, by decide⟩
  · simp [get_current_capacity, h]
  · simp [get_current_limit, h]
  · simp [get_current_limit, h, hp]

/-- Witness for C8: on `statusFSnoCap` the capacity file is absent and
`get_current_capacity` returns `none`. -/
theorem missing_file_read_asymmetry_witness :
    get_current_capacity statusFSnoCap "/sys/class/power_supply/BAT0" = none :=
  (missing_file_read_asymmetry statusFSnoCap "/sys/class/power_supply/BAT0" "").1 (by decide)

/-- C10: `apply_on_boot` writes the whitespace-stripped config content to
the sysfs control file verbatim: no integer parsing and no range check,
so a stored value outside `[50, 100]` (such as `30`) is still written to
the kernel interface. -/
theorem boot_write_verbatim (fs : FS) (s bp : String)
    (hex : fs.pathExists CONFIG_FILE = true)
    (hr : fs.read CONFIG_FILE = some s)
    (hb : find_supported_battery fs = some bp)
    (hw : joinPath bp "charge_control_end_threshold" ∉ fs.failWrites) :
    (apply_on_boot fs).read (joinPath bp "charge_control_end_threshold") =
      some (pyStrip s) := by
  have hr' : List.lookup CONFIG_FILE fs.files = some s := hr
  simp [apply_on_boot, hex, hr', hb, FS.write, hw, FS.read, lookup_cons_self]

/-- Witness for C10: booting with the out-of-range config text `30` writes
`30` to `BAT1`'s control file. -/
theorem boot_write_verbatim_witness :
    (apply_on_boot bootFS).read
      (joinPath "/sys/class/power_supply/BAT1" "charge_control_end_threshold") =
      some (pyStrip "30\n") :=
  boot_write_verbatim bootFS "30\n" "/sys/class/power_supply/BAT1"
    (by decide) (by decide) (by decide) (by decide)
